import Mathlib

/-!
Verification of the `embedded-hal-error` crate (src/src/lib.rs): a newtype
wrapper `Error<E, K> { inner, kind }` giving `core::error::Error` to
embedded-hal style errors. We shallowly embed the data type, its methods
(`into_inner`, `Deref`, `Display`, `Debug`, `error::Error::source`), the
macro-generated `From` conversions, and the test scaffolding
(`HalError`, `Pin`, `DriverError`, `driver::action`), and prove the spec's
claims about them.
-/

namespace EmbeddedHalError

/-- `pub struct Error<E, K> { inner: E, kind: K }` (src/src/lib.rs lines 15-18).
Both fields are private in the source: the only exposed constructor is the
`From` conversion below. -/
structure Error (E K : Type) where
  inner : E
  kind : K
deriving DecidableEq

/-- `Error::into_inner(self) -> E` (lines 20-25): consumes the wrapper and
yields the inner error. -/
def Error.into_inner {E K : Type} (w : Error E K) : E :=
  w.inner

/-- `core::ops::Deref for Error<E, K>` (lines 27-32): `deref(&self) -> &E`
returns a shared (read-only) reference to `inner`. No `DerefMut` impl exists
in the source. -/
def Error.deref {E K : Type} (w : Error E K) : E :=
  w.inner

/-- `fmt::Display for Error<E, K>` (lines 34-38). The impl bounds `E: fmt::Debug`
and calls `self.inner.fmt(f)`, which resolves to `Debug::fmt` since `Debug` is
the only formatting trait bound on `E` (the crate doc says: "Uses `E: Debug`
for `Debug` and `Display`"). Hence it is a function of the inner error's Debug
rendering `debugE` only. -/
def Error.display {E K : Type} (debugE : E → String) (w : Error E K) : String :=
  debugE w.inner

/-- `fmt::Debug for Error<E, K>` (lines 40-44): delegates to `self.inner.fmt(f)`,
i.e. the inner error's `Debug::fmt`. -/
def Error.debug {E K : Type} (debugE : E → String) (w : Error E K) : String :=
  debugE w.inner

/-- The `From<E>` conversion body generated by `impl_from!` (lines 52-61):
`fn from(inner: E) -> Self { let kind = inner.kind(); Self { inner, kind } }`.
The classification capability `E::kind` is passed as the function `kindOf`.
(Named `fromE` because `from` is a reserved word in Lean.) -/
def Error.fromE {E K : Type} (kindOf : E → K) (inner : E) : Error E K :=
  { inner := inner, kind := kindOf inner }

/-- `From::from` where the classification method may itself panic: a panic of
`inner.kind()` is modelled as `none`. The conversion body performs no other
operation, so this is its only failure surface. -/
def Error.fromFallible {E K : Type} (kindOf : E → Option K) (inner : E) :
    Option (Error E K) :=
  (kindOf inner).map fun k => { inner := inner, kind := k }

/-- The adapter values reachable through the crate's public interface: the
struct fields are private and the sole exposed constructor is the `From`
conversion, so every reachable wrapper is `Error.fromE kindOf e` for some `e`. -/
inductive Reachable {E K : Type} (kindOf : E → K) : Error E K → Prop
  | wrap (e : E) : Reachable kindOf (Error.fromE kindOf e)

/-- The operations the public interface exposes on a live wrapper value
(src/src/lib.rs): `into_inner` (takes `self` by value), `Deref::deref`,
`Display::fmt`, `Debug::fmt` and `error::Error::source` (each takes `&self`).
No other method, and in particular no mutable accessor, exists. -/
inductive ExposedOp
  | intoInner
  | derefOp
  | displayFmt
  | debugFmt
  | sourceOp
deriving DecidableEq

/-- Observable result of one exposed operation. -/
inductive OpResult (E K : Type)
  | consumed (val : E)
  | readRef (val : E)
  | rendered (s : String)
  | causeRef (k : K)
deriving DecidableEq

/-- Semantics of each exposed operation on a wrapper: the observable result,
and the wrapper value that survives the call (`none` when the operation
consumed it). Operations taking `&self` leave the wrapper as it was. -/
def Error.applyOp {E K : Type} (debugE : E → String) (w : Error E K) :
    ExposedOp → OpResult E K × Option (Error E K)
  | .intoInner => (.consumed w.into_inner, none)
  | .derefOp => (.readRef w.deref, some w)
  | .displayFmt => (.rendered (w.display debugE), some w)
  | .debugFmt => (.rendered (w.debug debugE), some w)
  | .sourceOp => (.causeRef w.kind, some w)

/-- `tests::driver::DriverError<E>` (lines 101-108): a composed driver-level
error whose `Hal` variant holds the adapter via `#[from]`; the thiserror
derive makes that field the variant's `source`. -/
inductive DriverError (E K : Type)
  | Hal (err : Error E K)
deriving DecidableEq

/-- `From<E> for DriverError<E>` (lines 107-111 of the tests):
`Error::from(value).into()`. -/
def DriverError.fromE {E K : Type} (kindOf : E → K) (e : E) : DriverError E K :=
  .Hal (Error.fromE kindOf e)

/-- The type-erased (`dyn core::error::Error`) values occurring in a composed
error chain: a driver-level error, the adapter, or a raw classification value.
The constructor tag models the dynamic type, so a successful `downcast_ref`
to a concrete type corresponds to matching that constructor. -/
inductive Dyn (E K : Type)
  | driver (d : DriverError E K)
  | adapter (w : Error E K)
  | kindVal (k : K)
deriving DecidableEq

/-- `source()` of each chain participant:
`DriverError::Hal(err)` reports `err` (thiserror `#[from]` field);
`Error<E, K>::source` is `Some(&self.kind)` (src/src/lib.rs lines 46-50);
a classification value has no further cause (the upstream `ErrorKind`
impls of `core::error::Error` keep the default `source`, returning `None` -
the spec: "classification enumerations have no further cause, so the chain
terminates there", and the crate's own test asserts
`kind_dyn.source().is_none()`). -/
def Dyn.source {E K : Type} : Dyn E K → Option (Dyn E K)
  | .driver (.Hal w) => some (.adapter w)
  | .adapter w => some (.kindVal w.kind)
  | .kindVal _ => none

/-- Walk the cause chain: `walk d n` is the value reached after following
`source` exactly `n` times, `none` once the chain has ended. -/
def Dyn.walk {E K : Type} : Dyn E K → Nat → Option (Dyn E K)
  | d, 0 => some d
  | d, n + 1 =>
    match d.source with
    | none => none
    | some d2 => d2.walk n

/-- The seven peripheral error families of the ecosystem. -/
inductive Family
  | digital
  | i2c
  | pwm
  | spi
  | can
  | serialNb
  | genericIo
deriving DecidableEq

/-- The `impl_from!` invocations at src/src/lib.rs lines 63-69, one per
peripheral family: `embedded_hal::digital`, `embedded_hal::i2c`,
`embedded_hal::pwm`, `embedded_hal::spi`, `embedded_can`,
`embedded_hal_nb::serial`, `embedded_io`. -/
def implFromFamilies : List Family :=
  [.digital, .i2c, .pwm, .spi, .can, .serialNb, .genericIo]

/-- The conversion each `impl_from!` invocation generates for its family. The
macro expands to the identical body for every family, differing only in the
trait paths, so every arm is the same `Error.fromE` pattern. -/
def familyFrom {E K : Type} : Family → (E → K) → E → Error E K
  | .digital => Error.fromE
  | .i2c => Error.fromE
  | .pwm => Error.fromE
  | .spi => Error.fromE
  | .can => Error.fromE
  | .serialNb => Error.fromE
  | .genericIo => Error.fromE

/-- `embedded_hal::digital::ErrorKind` as used by the crate's tests: the
`Other` classification. -/
inductive DigitalErrorKind
  | Other
deriving DecidableEq

/-- `tests::hal::HalError` (lines 79-85): a unit struct. -/
inductive HalError
  | mk
deriving DecidableEq

/-- `digital::Error for HalError`: `kind()` always returns `Other`. -/
def HalError.kind : HalError → DigitalErrorKind :=
  fun _ => .Other

/-- `Debug` rendering of `HalError` (derived): the struct's name. -/
def HalError.debugStr : HalError → String :=
  fun _ => "HalError"

/-- `tests::hal::Pin` (lines 86-98). -/
inductive Pin
  | mk
deriving DecidableEq

/-- `Pin::set_high` (lines 92-94): always fails with `HalError`. -/
def Pin.set_high : Pin → Except HalError Unit :=
  fun _ => .error .mk

/-- `Pin::set_low` (lines 95-97): the body is `unimplemented!()`, i.e. it
panics whenever called; the panic is modelled as `none`. -/
def Pin.set_low : Pin → Option (Except HalError Unit) :=
  fun _ => none

/-- `tests::driver::action` (lines 114-116): `Ok(pin.set_high()?)` - calls
`set_high` only, converting a failure into `DriverError` through the `From`
chain (peripheral error -> adapter -> driver error). -/
def driverAction (p : Pin) : Except (DriverError HalError DigitalErrorKind) Unit :=
  match p.set_high with
  | .error e => .error (DriverError.fromE HalError.kind e)
  | .ok u => .ok u

/-- An example inner error type whose Display and Debug renderings differ
(as a Rust type with distinct `Display` and `Debug` impls may). -/
inductive ExErr
  | mk
deriving DecidableEq

/-- `Display` rendering of `ExErr`. -/
def ExErr.displayStr : ExErr → String :=
  fun _ => "example error"

/-- `Debug` rendering of `ExErr`, distinct from its Display rendering. -/
def ExErr.debugStr : ExErr → String :=
  fun _ => "ExErr"

/-- Classification of `ExErr`. -/
def ExErr.kind : ExErr → DigitalErrorKind :=
  fun _ => .Other

/-- A concrete wrapped `ExErr`. -/
def exWrapper : Error ExErr DigitalErrorKind :=
  Error.fromE ExErr.kind ExErr.mk

/-- C1: for every adapter value `Error E K` (with a chainable `K`), the
adapter's `source` is `some` reference to the stored kind, the kind's own
`source` is `none`, and walking the chain from a composed driver-level error
is exactly two hops deep beyond the driver error:
driver-error -> adapter -> kind -> nothing, never longer or shorter. -/
theorem chain_depth_invariant (E K : Type) (w : Error E K) :
    Dyn.source (Dyn.adapter w) = some (Dyn.kindVal w.kind) ∧
    Dyn.source (Dyn.kindVal w.kind : Dyn E K) = none ∧
    Dyn.walk (Dyn.driver (DriverError.Hal w)) 0 = some (Dyn.driver (DriverError.Hal w)) ∧
    Dyn.walk (Dyn.driver (DriverError.Hal w)) 1 = some (Dyn.adapter w) ∧
    Dyn.walk (Dyn.driver (DriverError.Hal w)) 2 = some (Dyn.kindVal w.kind) ∧
    (∀ n : Nat, Dyn.walk (Dyn.driver (DriverError.Hal w)) n = none ↔ 3 ≤ n) := by
  refine ⟨rfl, rfl, rfl, rfl, rfl, fun n => ?_⟩
  match n with
  | 0 => simp [Dyn.walk]
  | 1 => simp [Dyn.walk, Dyn.source]
  | 2 => simp [Dyn.walk, Dyn.source]
  | n + 3 => simp [Dyn.walk, Dyn.source]

/-- C2: every reachable adapter stores the classification its inner error
reported at wrapping time (`wrap(e).kind = kindOf e`), and no exposed
operation afterwards mutates the stored inner error or the stored kind: each
operation either consumes the wrapper or leaves it exactly as it was. -/
theorem classification_consistency (E K : Type) (kindOf : E → K)
    (w : Error E K) (h : Reachable kindOf w) :
    w.kind = kindOf w.inner ∧
    (∀ (debugE : E → String) (op : ExposedOp),
      (w.applyOp debugE op).2 = none ∨ (w.applyOp debugE op).2 = some w) := by
  constructor
  · cases h with
    | wrap e => rfl
  · intro debugE op
    cases op with
    | intoInner => exact Or.inl rfl
    | derefOp => exact Or.inr rfl
    | displayFmt => exact Or.inr rfl
    | debugFmt => exact Or.inr rfl
    | sourceOp => exact Or.inr rfl

/-- Witness for C2 at the concrete wrapped `ExErr`. -/
theorem classification_consistency_witness :
    exWrapper.kind = ExErr.kind exWrapper.inner ∧
    (∀ (debugE : ExErr → String) (op : ExposedOp),
      (exWrapper.applyOp debugE op).2 = none ∨
      (exWrapper.applyOp debugE op).2 = some exWrapper) :=
  classification_consistency ExErr DigitalErrorKind ExErr.kind exWrapper
    (Reachable.wrap ExErr.mk)

/-- C3 counterexample: the wrapper's Display rendering does NOT equal the
inner error's Display rendering in general. For `ExErr`, whose Display and
Debug renderings differ, the wrapper renders the inner Debug form "ExErr",
not the inner Display form "example error": both wrapper impls delegate to
`Debug::fmt` of the inner error. -/
theorem display_delegation_counterexample :
    ¬ (Error.display ExErr.debugStr (Error.fromE ExErr.kind ExErr.mk)
        = ExErr.displayStr ExErr.mk) := by
  decide

/-- C3 amended: rendering `wrap(e)` in either diagnostic form (Display or
Debug) equals the inner error's Debug rendering of `e`; the Debug form
therefore agrees with the inner Debug rendering as claimed, while the
Display form delegates to the inner Debug (not Display) rendering. -/
theorem rendering_delegation (E K : Type) (kindOf : E → K)
    (debugE : E → String) (e : E) :
    Error.display debugE (Error.fromE kindOf e) = debugE e ∧
    Error.debug debugE (Error.fromE kindOf e) = debugE e :=
  ⟨rfl, rfl⟩

/-- C4 counterexample: no exposed operation mutates the wrapper, so there is
no "mutating through" the wrapper: at the concrete wrapped `ExErr`, every
operation of the public interface either consumes the wrapper or returns it
unchanged (the source implements `Deref` but no `DerefMut`). -/
theorem transparent_mutation_counterexample :
    ¬ (∃ op : ExposedOp,
        (exWrapper.applyOp ExErr.debugStr op).2 ≠ none ∧
        (exWrapper.applyOp ExErr.debugStr op).2 ≠ some exWrapper) := by
  rintro ⟨op, h1, h2⟩
  cases op with
  | intoInner => exact h1 rfl
  | derefOp => exact h2 rfl
  | displayFmt => exact h2 rfl
  | debugFmt => exact h2 rfl
  | sourceOp => exact h2 rfl

/-- C4 amended: the wrapper forwards READ access to the inner value: `deref`
on `wrap(e)` yields exactly `e`, so any read-only inner-value operation
invoked through the wrapper produces the same result as invoking it directly
on `e`, and forwarding never changes the inner value; mutation through the
wrapper is not provided (no operation alters a surviving wrapper). -/
theorem transparent_read_forwarding (E K A : Type) (kindOf : E → K)
    (e : E) (f : E → A) :
    (Error.fromE kindOf e).deref = e ∧
    f ((Error.fromE kindOf e).deref) = f e ∧
    (∀ (debugE : E → String) (op : ExposedOp),
      ((Error.fromE kindOf e).applyOp debugE op).2 = none ∨
      ((Error.fromE kindOf e).applyOp debugE op).2 = some (Error.fromE kindOf e)) := by
  refine ⟨rfl, rfl, fun debugE op => ?_⟩
  cases op with
  | intoInner => exact Or.inl rfl
  | derefOp => exact Or.inr rfl
  | displayFmt => exact Or.inr rfl
  | debugFmt => exact Or.inr rfl
  | sourceOp => exact Or.inr rfl

/-- C5: round-trip identity: `wrap(e).into_inner()` yields exactly `e`, hence
a value with the same Debug rendering and the same classification on
re-query. -/
theorem round_trip_identity (E K : Type) (kindOf : E → K)
    (debugE : E → String) (e : E) :
    (Error.fromE kindOf e).into_inner = e ∧
    debugE ((Error.fromE kindOf e).into_inner) = debugE e ∧
    kindOf ((Error.fromE kindOf e).into_inner) = kindOf e :=
  ⟨rfl, rfl, rfl⟩

/-- C6: the wrap conversion is total and infallible: whenever the inner
error's classification method returns (does not panic), the conversion
succeeds and produces exactly the wrapper storing the input error and its
classification - the conversion body performs no other operation. -/
theorem wrap_infallible (E K : Type) (kindOf : E → Option K) (e : E) (k : K)
    (h : kindOf e = some k) :
    Error.fromFallible kindOf e = some { inner := e, kind := k } := by
  simp [Error.fromFallible, h]

/-- Witness for C6 at a concrete input. -/
theorem wrap_infallible_witness :
    Error.fromFallible (fun _ : ExErr => some DigitalErrorKind.Other) ExErr.mk
      = some { inner := ExErr.mk, kind := DigitalErrorKind.Other } :=
  wrap_infallible ExErr DigitalErrorKind
    (fun _ => some DigitalErrorKind.Other) ExErr.mk DigitalErrorKind.Other rfl

/-- C7: for every adapter value, the `source` operation returns a read-only
reference to the stored kind and leaves the wrapper intact (not consumed). -/
theorem extract_classification (E K : Type) (w : Error E K)
    (debugE : E → String) :
    (w.applyOp debugE ExposedOp.sourceOp).1 = OpResult.causeRef w.kind ∧
    (w.applyOp debugE ExposedOp.sourceOp).2 = some w ∧
    Dyn.source (Dyn.adapter w) = some (Dyn.kindVal w.kind) :=
  ⟨rfl, rfl, rfl⟩

/-- C8: the wrap conversion exists for every one of the seven peripheral
error families (digital I/O, I2C, PWM, SPI, CAN, non-blocking serial,
generic I/O) - one `impl_from!` invocation per family - and every family's
conversion follows the identical pattern: compute the kind from the error
and store both in the adapter. -/
theorem conversion_per_family (E K : Type) :
    (∀ f : Family, f ∈ implFromFamilies) ∧
    implFromFamilies.length = 7 ∧
    (∀ (f : Family) (kindOf : E → K) (e : E),
      familyFrom f kindOf e = { inner := e, kind := kindOf e }) := by
  refine ⟨fun f => ?_, rfl, fun f kindOf e => ?_⟩
  · cases f <;> simp [implFromFamilies]
  · cases f <;> rfl

/-- C9 counterexample: in the code, `Pin::set_low` does not succeed - its
body is `unimplemented!()`, panicking if ever called (and `driver::action`
calls only `set_high`). -/
theorem scenario_set_low_counterexample :
    Pin.set_low Pin.mk = none ∧
    ¬ (Pin.set_low Pin.mk = some (Except.ok ())) :=
  ⟨rfl, fun h => Option.noConfusion h⟩

/-- C9 amended: the pin's `set_high` fails with classification `Other`;
`set_low` is unimplemented but never invoked, since the driver's `action`
calls only `set_high` and propagates its failure. The driver produces a
composed error whose cause chain, walked twice, yields first a value
downcastable to the adapter type with stored kind `Other`, then a value
downcastable to the classification `Other`, then no further cause. -/
theorem scenario_chain :
    driverAction Pin.mk
      = Except.error (DriverError.Hal (Error.fromE HalError.kind HalError.mk)) ∧
    (Error.fromE HalError.kind HalError.mk).kind = DigitalErrorKind.Other ∧
    Dyn.walk (Dyn.driver (DriverError.Hal (Error.fromE HalError.kind HalError.mk))) 1
      = some (Dyn.adapter (Error.fromE HalError.kind HalError.mk)) ∧
    Dyn.walk (Dyn.driver (DriverError.Hal (Error.fromE HalError.kind HalError.mk))) 2
      = some (Dyn.kindVal DigitalErrorKind.Other) ∧
    Dyn.walk (Dyn.driver (DriverError.Hal (Error.fromE HalError.kind HalError.mk))) 3
      = none :=
  ⟨rfl, rfl, rfl, rfl, rfl⟩

/-- C10: the wrapper's Display and Debug renderings are identical to each
other and both equal the inner error's Debug rendering; both are defined from
the inner Debug rendering alone, so the wrapper's Display is well-defined
even when the inner type has no Display of its own. -/
theorem display_equals_debug (E K : Type) (debugE : E → String)
    (w : Error E K) :
    Error.display debugE w = Error.debug debugE w ∧
    Error.display debugE w = debugE w.inner ∧
    Error.debug debugE w = debugE w.inner :=
  ⟨rfl, rfl, rfl⟩

end EmbeddedHalError
